import Mathlib

/-
  Verification of the redis-client crate (src/settings.rs, src/error.rs,
  src/redis_client.rs) via a shallow embedding in Lean 4.

  External crates are modelled as follows:
  * `http::Uri` parsing is an oracle parameter `parse : String → Except String Uri`;
    the `Uri` structure records exactly the accessors the code calls
    (`scheme_str`, `host`, `port_u16`, `path`).
  * driver types (`redis::Client`, `redis::cluster::ClusterClient{Builder}`,
    connections) are modelled as value templates; the asynchronous connection
    attempts are oracle parameters; `tokio::sync::OnceCell` becomes explicit
    state passing of an `Option` cell.
-/

namespace RedisVerify

/-- Embedding of `RedisSettings` (src/settings.rs, lines 5-31). -/
structure RedisSettings where
  address : Option String
  addresses : Option String
  username : Option String
  password : Option String
  db : Int
deriving DecidableEq

/-- Model of a successfully parsed `http::Uri` (external crate), as observed
through the four accessors the code uses: `scheme_str()`, `host()`,
`port_u16()` and `path()`. -/
structure Uri where
  scheme_str : Option String
  host : Option String
  port_u16 : Option Nat
  path : String
deriving DecidableEq

/-- Embedding of `redis::ConnectionAddr` (external driver enum); the code
constructs its `Tcp`, `TcpTls` and `Unix` variants.  `tls_params : Option Unit`
models the `Option<TlsConnParams>` field (`None` = default trust store). -/
inductive ConnectionAddr where
  | Tcp (host : String) (port : Nat)
  | TcpTls (host : String) (port : Nat) (insecure : Bool) (tls_params : Option Unit)
  | Unix (path : String)
deriving DecidableEq

/-- Embedding of `redis::RedisConnectionInfo` as populated by the code. -/
structure RedisConnectionInfo where
  db : Int
  username : Option String
  password : Option String
deriving DecidableEq

/-- Embedding of `redis::ConnectionInfo` as populated by the code. -/
structure ConnectionInfo where
  addr : ConnectionAddr
  redis : RedisConnectionInfo
deriving DecidableEq

/-- Model of `redis::RedisError`: only its `category()` string and a rendered
detail string are observable through this crate. -/
structure RedisErr where
  category : String
  detail : String
deriving DecidableEq

/-- Rendering of a driver error, used where the code passes it to `set_source`. -/
def RedisErr.display (e : RedisErr) : String := e.detail

/-- Embedding of `ErrorKind` (src/error.rs, lines 31-39). -/
inductive ErrorKind where
  | Unexpected
  | ConfigInvalid
deriving DecidableEq

/-- Embedding of `ErrorKind::into_static` / `From<ErrorKind> for &str`
(src/error.rs, lines 55-62). -/
def ErrorKind.into_static : ErrorKind → String
  | .Unexpected => "Unexpected"
  | .ConfigInvalid => "ConfigInvalid"

/-- Embedding of `Error` (src/error.rs, lines 112-119).  The `anyhow::Error`
source is modelled by its rendered string; the backtrace is not modelled
(capture is disabled by default, so neither rendering prints it). -/
structure Error where
  kind : ErrorKind
  message : String
  context : List (String × String)
  source : Option String
deriving DecidableEq

/-- Embedding of `Error::new` (src/error.rs, lines 199-209). -/
def Error.new (kind : ErrorKind) (message : String) : Error :=
  { kind := kind, message := message, context := [], source := none }

/-- Embedding of `Error::with_context` (src/error.rs, lines 211-214). -/
def Error.with_context (e : Error) (key value : String) : Error :=
  { e with context := e.context ++ [(key, value)] }

/-- Embedding of `Error::set_source` (src/error.rs, lines 221-226); the
debug-build assertion that the source is not yet set is ignored, matching
release behaviour. -/
def Error.set_source (e : Error) (src : String) : Error :=
  { e with source := some src }

/-- Embedding of `format_redis_error` (src/redis_client.rs, lines 26-28). -/
def format_redis_error (e : RedisErr) : Error :=
  (Error.new .Unexpected e.category).set_source e.display

def DEFAULT_REDIS_ENDPOINT : String := "tcp://127.0.0.1:6379"

def DEFAULT_REDIS_PORT : Nat := 6379

/-- Embedding of the front half of `get_connection_info` (src/redis_client.rs,
lines 30-69): the `endpoint.parse::<Uri>()` step (via the `parse` oracle, whose
error is the rendered `InvalidUri`) followed by the `match` computing
`con_addr`, with the two early-`return Err` paths. -/
def get_connection_addr (parse : String → Except String Uri) (endpoint : String) :
    Except Error ConnectionAddr :=
  match parse endpoint with
  | .error e =>
      .error (((Error.new .ConfigInvalid "endpoint is invalid").with_context
        "endpoint" endpoint).set_source e)
  | .ok ep_url =>
      if ep_url.scheme_str = some "tcp" ∨ ep_url.scheme_str = some "redis" ∨
          ep_url.scheme_str = none then
        .ok (.Tcp (ep_url.host.getD "127.0.0.1") (ep_url.port_u16.getD DEFAULT_REDIS_PORT))
      else if ep_url.scheme_str = some "rediss" then
        .ok (.TcpTls (ep_url.host.getD "127.0.0.1") (ep_url.port_u16.getD DEFAULT_REDIS_PORT)
          false none)
      else if ep_url.scheme_str = some "unix" ∨ ep_url.scheme_str = some "redis+unix" then
        .ok (.Unix ep_url.path)
      else
        .error (Error.new .ConfigInvalid "invalid or unsupported scheme")

/-- Embedding of `get_connection_info` (src/redis_client.rs, lines 30-81):
compute `con_addr` (early-returning its errors), then pair it with the
`RedisConnectionInfo` taken unchanged from the settings. -/
def get_connection_info (parse : String → Except String Uri) (endpoint : String)
    (settings : RedisSettings) : Except Error ConnectionInfo :=
  (get_connection_addr parse endpoint).map fun con_addr =>
    { addr := con_addr,
      redis := { db := settings.db, username := settings.username,
                 password := settings.password } }

/-- Model of `redis::Client` (external driver): a template holding the parsed
connection info; no network I/O happens at construction. -/
structure Client where
  connection_info : ConnectionInfo
deriving DecidableEq

/-- Model of `redis::Client::open` applied to an already-built
`ConnectionInfo`: the driver's `IntoConnectionInfo` impl for `ConnectionInfo`
is the identity, so this construction is infallible. -/
def Client.open (info : ConnectionInfo) : Except RedisErr Client :=
  .ok { connection_info := info }

/-- Model of `redis::cluster::ClusterClient` (external driver): the template
produced by the builder, holding the initial nodes and the cluster-level
credentials; no network I/O happens at construction. -/
structure ClusterClient where
  initial_nodes : List ConnectionInfo
  username : Option String
  password : Option String
deriving DecidableEq

/-- Model of `redis::cluster::ClusterClientBuilder` state: the initial nodes
plus the cluster-level credentials set by its `username`/`password` methods. -/
structure ClusterClientBuilder where
  initial_nodes : List ConnectionInfo
  username : Option String
  password : Option String
deriving DecidableEq

/-- Model of `ClusterClientBuilder::new`. -/
def ClusterClientBuilder.new (initial_nodes : List ConnectionInfo) : ClusterClientBuilder :=
  { initial_nodes := initial_nodes, username := none, password := none }

/-- Embedding of `if let Some(username) = &settings.username { client_builder =
client_builder.username(username.clone()) }` (src/redis_client.rs,
lines 116-118). -/
def ClusterClientBuilder.with_username (b : ClusterClientBuilder) :
    Option String → ClusterClientBuilder
  | some username => { b with username := some username }
  | none => b

/-- Embedding of `if let Some(password) = &settings.password { client_builder =
client_builder.password(password.clone()) }` (src/redis_client.rs,
lines 119-121). -/
def ClusterClientBuilder.with_password (b : ClusterClientBuilder) :
    Option String → ClusterClientBuilder
  | some password => { b with password := some password }
  | none => b

/-- Model of `ClusterClientBuilder::build` (external driver): synchronous
template construction, failing only on an empty initial-node list. -/
def ClusterClientBuilder.build (b : ClusterClientBuilder) : Except RedisErr ClusterClient :=
  if b.initial_nodes.isEmpty then
    .error { category := "invalid client config", detail := "Initial nodes can't be empty." }
  else
    .ok { initial_nodes := b.initial_nodes, username := b.username, password := b.password }

/-- Model of `redis::aio::ConnectionManager` (an established managed single
connection); contents are opaque to this crate. -/
structure ConnectionManager where
  id : Nat
deriving DecidableEq

/-- Model of `redis::cluster_async::ClusterConnection` (an established cluster
connection); contents are opaque to this crate. -/
structure ClusterConnection where
  id : Nat
deriving DecidableEq

/-- Embedding of the `RedisConnection` enum (src/redis_client.rs, lines 83-87). -/
inductive RedisConnection where
  | Single (c : ConnectionManager)
  | Cluster (c : ClusterConnection)
deriving DecidableEq

/-- Embedding of `RedisClient` (src/redis_client.rs, lines 89-95).  The
`OnceCell<RedisConnection>` is modelled as an `Option` cell threaded
explicitly through `connect`. -/
structure RedisClient where
  addresses : String
  client : Option Client
  cluster_client : Option ClusterClient
  conn : Option RedisConnection
deriving DecidableEq

/-- Model of Rust `str::split(",")`: split a character list at every comma;
always yields at least one (possibly empty) piece. -/
def split_comma_chars : List Char → List (List Char)
  | [] => [[]]
  | c :: cs =>
      match split_comma_chars cs with
      | [] => [[]]
      | p :: ps => if c = ',' then [] :: p :: ps else (c :: p) :: ps

/-- Model of `addresses.split(",")` (src/redis_client.rs, line 111). -/
def split_comma (s : String) : List String :=
  (split_comma_chars s.toList).map fun cs => String.mk cs

/-- Embedding of the `for address in addresses.split(",")` loop body
(src/redis_client.rs, lines 110-113): parse each piece, failing fast on the
first invalid one. -/
def collect_infos (parse : String → Except String Uri) (settings : RedisSettings) :
    List String → Except Error (List ConnectionInfo)
  | [] => .ok []
  | address :: rest =>
      match get_connection_info parse address settings with
      | .error e => .error e
      | .ok info =>
          match collect_infos parse settings rest with
          | .error e => .error e
          | .ok infos => .ok (info :: infos)

/-- Embedding of `RedisClient::new` (src/redis_client.rs, lines 108-151). -/
def RedisClient.new (parse : String → Except String Uri) (settings : RedisSettings) :
    Except Error RedisClient :=
  match settings.addresses with
  | some addresses =>
      match collect_infos parse settings (split_comma addresses) with
      | .error e => .error e
      | .ok cluser_addresses =>
          let b0 := ClusterClientBuilder.new cluser_addresses
          let b1 := b0.with_username settings.username
          let b2 := b1.with_password settings.password
          match b2.build with
          | .error e => .error (format_redis_error e)
          | .ok client =>
              .ok { addresses := addresses, client := none,
                    cluster_client := some client, conn := none }
  | none =>
      let address := settings.address.getD DEFAULT_REDIS_ENDPOINT
      match get_connection_info parse address settings with
      | .error e => .error e
      | .ok info =>
          match Client.open info with
          | .error e =>
              .error ((((Error.new .ConfigInvalid
                "invalid or unsupported scheme").with_context "address" address).with_context
                "db" (toString settings.db)).set_source e.display)
          | .ok client =>
              .ok { addresses := address, client := some client,
                    cluster_client := none, conn := none }

/-- Embedding of the initialization closure inside `RedisClient::connect`
(src/redis_client.rs, lines 156-168).  The two awaited driver calls are
oracles (`singleConnect` models `ConnectionManager::new`, `clusterConnect`
models `get_async_connection`); the `unwrap()` on `cluster_client`
(unreachable under the construction invariant) is modelled as a driver error. -/
def connect_attempt (singleConnect : Client → Except RedisErr ConnectionManager)
    (clusterConnect : ClusterClient → Except RedisErr ClusterConnection)
    (self : RedisClient) : Except RedisErr RedisConnection :=
  match self.client with
  | some client => (singleConnect client).map .Single
  | none =>
      match self.cluster_client with
      | some cluster_client => (clusterConnect cluster_client).map .Cluster
      | none => .error { category := "panic", detail := "called unwrap on None" }

/-- Embedding of `RedisClient::connect` (src/redis_client.rs, lines 153-173),
with the initialization closure factored out as `connect_attempt`.
`conn.get_or_try_init` is tokio `OnceCell` semantics made explicit: a
populated cell is returned as-is, a successful initialization populates the
cell, a failed one returns the mapped error and leaves the cell empty. -/
def RedisClient.connect (singleConnect : Client → Except RedisErr ConnectionManager)
    (clusterConnect : ClusterClient → Except RedisErr ClusterConnection)
    (self : RedisClient) : RedisClient × Except Error RedisConnection :=
  match self.conn with
  | some v => (self, .ok v)
  | none =>
      match connect_attempt singleConnect clusterConnect self with
      | .ok v => ({ self with conn := some v }, .ok v)
      | .error e => (self, .error (format_redis_error e))

/-- Model of `std::time::Duration`: whole seconds plus a sub-second nanosecond
part (the Rust invariant keeps `nanos < 10^9`); `as_secs` returns the whole
seconds, truncating the sub-second part. -/
structure Duration where
  secs : Nat
  nanos : Nat
deriving DecidableEq

def Duration.as_secs (d : Duration) : Nat := d.secs

/-- Observable store write issued by `RedisClient::set`. -/
inductive StoreWrite where
  | withExpiry (key : String) (value : List Nat) (seconds : Nat)
  | plain (key : String) (value : List Nat)
deriving DecidableEq

/-- Embedding of the dispatch in `RedisClient::set` (src/redis_client.rs,
lines 189-212): after the connection is resolved, the store write issued —
`set_ex(key, value, ttl.as_secs())` when a ttl is given, plain
`set(key, value)` otherwise, matching on the connection mode exactly as the
source does. -/
def set_write (conn : RedisConnection) (key : String) (value : List Nat)
    (ttl : Option Duration) : StoreWrite :=
  match ttl with
  | some t =>
      match conn with
      | .Single _ => .withExpiry key value t.as_secs
      | .Cluster _ => .withExpiry key value t.as_secs
  | none =>
      match conn with
      | .Single _ => .plain key value
      | .Cluster _ => .plain key value

/-- Rust `Debug` rendering of a string value (quotes; escape sequences are not
modelled). -/
def dq (s : String) : String := "\"" ++ s ++ "\""

/-- Embedding of `Display for Error` (src/error.rs, lines 121-149): the
single-line form. -/
def Error.display (e : Error) : String :=
  e.kind.into_static ++
  (if e.context.isEmpty then ""
   else ", context: \x7b " ++
     String.intercalate ", " (e.context.map fun kv => kv.1 ++ ": " ++ kv.2) ++ " \x7d") ++
  (if e.message.isEmpty then "" else " => " ++ e.message) ++
  (match e.source with
   | some src => ", source: " ++ src
   | none => "")

/-- Embedding of `Debug for Error`, non-alternate branch (src/error.rs,
lines 162-187): the multi-line detailed form.  The backtrace block is absent
because capture is disabled by default. -/
def Error.debugFmt (e : Error) : String :=
  e.kind.into_static ++
  (if e.message.isEmpty then "" else " => " ++ e.message) ++ "\n" ++
  (if e.context.isEmpty then ""
   else "\nContext:\n" ++
     String.join (e.context.map fun kv => "   " ++ kv.1 ++ ": " ++ kv.2 ++ "\n")) ++
  (match e.source with
   | some src => "\nSource:\n   " ++ src ++ "\n"
   | none => "")

/-- Embedding of `Debug for RedisSettings` (src/settings.rs, lines 33-53):
the manual formatter that prints `db`, the optional endpoint and username
fields, and `<redacted>` in place of the password value. -/
def RedisSettings.debugFmt (s : RedisSettings) : String :=
  let fields : List (String × String) :=
    [("db", dq (toString s.db))] ++
    (match s.address with
     | some address => [("address", dq address)]
     | none => []) ++
    (match s.addresses with
     | some addresses => [("cluster_endpoints", dq addresses)]
     | none => []) ++
    (match s.username with
     | some username => [("username", dq username)]
     | none => []) ++
    (match s.password with
     | some _ => [("password", dq "<redacted>")]
     | none => [])
  "RedisSettings \x7b " ++
    String.intercalate ", " (fields.map fun kv => kv.1 ++ ": " ++ kv.2) ++ ", .. \x7d"

/-- Embedding of `Debug for RedisClient` (src/redis_client.rs, lines 97-105):
only the `addresses` field is printed. -/
def RedisClient.debugFmt (c : RedisClient) : String :=
  "RedisClient \x7b addresses: " ++ dq c.addresses ++ " \x7d"

/-- Error projection of a fallible result. -/
def errPart {α : Type} : Except Error α → Option Error
  | .error e => some e
  | .ok _ => none

/-- Both diagnostic renderings of the error part of a construction result. -/
def errRender (r : Except Error RedisClient) : Option (String × String) :=
  (errPart r).map fun e => (e.display, e.debugFmt)

theorem errPart_map {α β : Type} (f : α → β) (x : Except Error α) :
    errPart (x.map f) = errPart x := by
  cases x <;> rfl

/-- Claim C1: for every endpoint string that parses as a URI,
`get_connection_info` maps scheme `tcp`/`redis`/none to a TCP address with
host defaulting to `127.0.0.1` and port defaulting to 6379; scheme `rediss`
to a TLS TCP address with the same defaulting, `insecure = false` and TLS
parameters unset; and scheme `unix`/`redis+unix` to a Unix-socket address
whose path is the URI's path component. -/
theorem c1_scheme_transport_mapping
    (parse : String → Except String Uri) (endpoint : String) (u : Uri)
    (s : RedisSettings) (h : parse endpoint = .ok u) :
    ((u.scheme_str = some "tcp" ∨ u.scheme_str = some "redis" ∨ u.scheme_str = none) →
      get_connection_info parse endpoint s =
        .ok { addr := .Tcp (u.host.getD "127.0.0.1") (u.port_u16.getD 6379),
              redis := { db := s.db, username := s.username, password := s.password } }) ∧
    (u.scheme_str = some "rediss" →
      get_connection_info parse endpoint s =
        .ok { addr := .TcpTls (u.host.getD "127.0.0.1") (u.port_u16.getD 6379) false none,
              redis := { db := s.db, username := s.username, password := s.password } }) ∧
    ((u.scheme_str = some "unix" ∨ u.scheme_str = some "redis+unix") →
      get_connection_info parse endpoint s =
        .ok { addr := .Unix u.path,
              redis := { db := s.db, username := s.username, password := s.password } }) := by
  refine ⟨fun hs => ?_, fun hs => ?_, fun hs => ?_⟩
  · rcases hs with hs | hs | hs <;>
      simp [get_connection_info, get_connection_addr, h, hs, DEFAULT_REDIS_PORT, Except.map]
  · simp [get_connection_info, get_connection_addr, h, hs, DEFAULT_REDIS_PORT, Except.map]
  · rcases hs with hs | hs <;>
      simp [get_connection_info, get_connection_addr, h, hs, Except.map]

theorem c1_scheme_transport_mapping_witness :
    get_connection_info (fun _ => .ok ⟨some "tcp", some "h", some 1, "/"⟩) "tcp://h:1"
        ⟨none, none, none, none, 0⟩ =
      .ok { addr := .Tcp "h" 1,
            redis := { db := 0, username := none, password := none } } :=
  (c1_scheme_transport_mapping (fun _ => .ok ⟨some "tcp", some "h", some 1, "/"⟩)
    "tcp://h:1" ⟨some "tcp", some "h", some 1, "/"⟩ ⟨none, none, none, none, 0⟩ rfl).1
    (Or.inl rfl)

/-- Claim C5 (amended): for a URI whose scheme is outside
{tcp, redis, rediss, unix, redis+unix, none}, `get_connection_info` fails with
kind `ConfigInvalid` and message "invalid or unsupported scheme", but the
error carries no context at all (the offending value is not attached). -/
theorem c5_unsupported_scheme
    (parse : String → Except String Uri) (endpoint : String) (u : Uri)
    (s : RedisSettings) (x : String) (h : parse endpoint = .ok u)
    (hx : u.scheme_str = some x)
    (h1 : x ≠ "tcp") (h2 : x ≠ "redis") (h3 : x ≠ "rediss")
    (h4 : x ≠ "unix") (h5 : x ≠ "redis+unix") :
    get_connection_info parse endpoint s =
      .error { kind := .ConfigInvalid, message := "invalid or unsupported scheme",
               context := [], source := none } := by
  simp [get_connection_info, get_connection_addr, h, hx, h1, h2, h3, h4, h5,
    Except.map, Error.new]

theorem c5_unsupported_scheme_witness :
    get_connection_info (fun _ => .ok ⟨some "http", some "h", none, ""⟩) "http://h"
        ⟨none, none, none, some "pw", 0⟩ =
      .error { kind := .ConfigInvalid, message := "invalid or unsupported scheme",
               context := [], source := none } :=
  c5_unsupported_scheme (fun _ => .ok ⟨some "http", some "h", none, ""⟩) "http://h"
    ⟨some "http", some "h", none, ""⟩ ⟨none, none, none, some "pw", 0⟩ "http" rfl rfl
    (by decide) (by decide) (by decide) (by decide) (by decide)

/-- Claim C5, counterexample to the claim as stated: at the concrete endpoint
`http://h` the unsupported-scheme error has kind `ConfigInvalid` and the
stated message, but its context list is empty, so it does not include the
offending value as context. -/
theorem c5_counterexample :
    get_connection_info (fun _ => .ok ⟨some "http", some "example.com", some 80, "/"⟩)
        "http://example.com:80/" ⟨none, none, none, none, 0⟩ =
      .error { kind := .ConfigInvalid, message := "invalid or unsupported scheme",
               context := [], source := none } := rfl

/-- Claim C6: with a ttl present, `set` issues a store write whose expiry is
the ttl's whole-second part (sub-second precision truncated away); with no
ttl it issues a plain write; and the write issued is the same on the
single-node and cluster dispatch paths. -/
theorem c6_set_expiry (conn : RedisConnection) (key : String) (value : List Nat)
    (d : Duration) (h : d.nanos < 1000000000) :
    set_write conn key value (some d) =
      .withExpiry key value ((d.secs * 1000000000 + d.nanos) / 1000000000) ∧
    set_write conn key value none = .plain key value ∧
    ∀ (cm : ConnectionManager) (cl : ClusterConnection) (ttl : Option Duration),
      set_write (.Single cm) key value ttl = set_write (.Cluster cl) key value ttl := by
  have hsec : (d.secs * 1000000000 + d.nanos) / 1000000000 = d.secs := by
    calc (d.secs * 1000000000 + d.nanos) / 1000000000
        = (d.nanos + 1000000000 * d.secs) / 1000000000 := by ring_nf
      _ = d.nanos / 1000000000 + d.secs := Nat.add_mul_div_left _ _ (by norm_num)
      _ = d.secs := by rw [Nat.div_eq_of_lt h, Nat.zero_add]
  refine ⟨?_, ?_, ?_⟩
  · cases conn <;> simp [set_write, Duration.as_secs, hsec]
  · cases conn <;> rfl
  · intro cm cl ttl
    cases ttl <;> rfl

theorem c6_set_expiry_witness :
    (999999999 : Nat) < 1000000000 ∧
    set_write (.Single ⟨0⟩) "k" [1, 2] (some ⟨5, 999999999⟩) =
      .withExpiry "k" [1, 2] ((5 * 1000000000 + 999999999) / 1000000000) ∧
    set_write (.Single ⟨0⟩) "k" [1, 2] none = .plain "k" [1, 2] :=
  ⟨by norm_num,
   (c6_set_expiry (.Single ⟨0⟩) "k" [1, 2] ⟨5, 999999999⟩ (by norm_num)).1,
   (c6_set_expiry (.Single ⟨0⟩) "k" [1, 2] ⟨5, 999999999⟩ (by norm_num)).2.1⟩

theorem gci_congr (parse : String → Except String Uri) (ep : String)
    (s₁ s₂ : RedisSettings) (hdb : s₁.db = s₂.db) (hu : s₁.username = s₂.username)
    (hp : s₁.password = s₂.password) :
    get_connection_info parse ep s₁ = get_connection_info parse ep s₂ := by
  simp only [get_connection_info, hdb, hu, hp]

theorem collect_infos_congr (parse : String → Except String Uri)
    (s₁ s₂ : RedisSettings) (hdb : s₁.db = s₂.db) (hu : s₁.username = s₂.username)
    (hp : s₁.password = s₂.password) (l : List String) :
    collect_infos parse s₁ l = collect_infos parse s₂ l := by
  induction l with
  | nil => rfl
  | cons x xs ih => simp only [collect_infos, gci_congr parse x s₁ s₂ hdb hu hp, ih]

/-- Claim C2: `RedisClient::new` selects cluster mode whenever
`settings.addresses` is present, regardless of `settings.address`; otherwise
it selects single mode using `settings.address`, and with neither field set
it succeeds using the default endpoint `tcp://127.0.0.1:6379`. -/
theorem c2_mode_selection (parse : String → Except String Uri) (s : RedisSettings) :
    (∀ as, s.addresses = some as →
      (∀ a, RedisClient.new parse { s with address := a } = RedisClient.new parse s) ∧
      ∀ r, RedisClient.new parse s = .ok r → r.cluster_client.isSome ∧ r.client = none) ∧
    (s.addresses = none → ∀ a, s.address = some a →
      ∀ r, RedisClient.new parse s = .ok r →
        r.addresses = a ∧ r.client.isSome ∧ r.cluster_client = none) ∧
    (s.addresses = none → s.address = none → ∀ p,
      parse DEFAULT_REDIS_ENDPOINT = .ok ⟨some "tcp", some "127.0.0.1", some 6379, p⟩ →
      RedisClient.new parse s =
        .ok { addresses := DEFAULT_REDIS_ENDPOINT,
              client := some { connection_info :=
                { addr := .Tcp "127.0.0.1" 6379,
                  redis := { db := s.db, username := s.username,
                             password := s.password } } },
              cluster_client := none, conn := none }) := by
  refine ⟨fun as hA => ⟨fun a => ?_, fun r hr => ?_⟩, fun hA a ha r hr => ?_, fun hA ha p hp => ?_⟩
  · simp only [RedisClient.new, hA]
    rw [collect_infos_congr parse ⟨a, some as, s.username, s.password, s.db⟩ s rfl rfl rfl]
  · simp only [RedisClient.new, hA] at hr
    split at hr
    · exact Except.noConfusion hr
    · split at hr
      · exact Except.noConfusion hr
      · injection hr with hr
        subst hr
        exact ⟨rfl, rfl⟩
  · simp only [RedisClient.new, hA, ha, Option.getD_some] at hr
    split at hr
    · exact Except.noConfusion hr
    · simp only [Client.open] at hr
      injection hr with hr
      subst hr
      exact ⟨rfl, rfl, rfl⟩
  · simp [RedisClient.new, hA, ha, hp, get_connection_info, get_connection_addr,
      Client.open, Except.map, DEFAULT_REDIS_PORT]

theorem c2_mode_selection_witness :
    RedisClient.new (fun _ => .ok ⟨some "tcp", some "127.0.0.1", some 6379, ""⟩)
        ⟨none, none, none, none, 0⟩ =
      .ok { addresses := DEFAULT_REDIS_ENDPOINT,
            client := some { connection_info :=
              { addr := .Tcp "127.0.0.1" 6379,
                redis := { db := 0, username := none, password := none } } },
            cluster_client := none, conn := none } ∧
    RedisClient.new (fun _ => .ok ⟨some "tcp", some "a", some 1, ""⟩)
        ⟨some "y", some "tcp://a:1", none, none, 0⟩ =
      RedisClient.new (fun _ => .ok ⟨some "tcp", some "a", some 1, ""⟩)
        ⟨some "x", some "tcp://a:1", none, none, 0⟩ ∧
    ((⟨"tcp://a:1", none,
        some ⟨[⟨.Tcp "a" 1, ⟨0, none, none⟩⟩], none, none⟩, none⟩ : RedisClient).cluster_client.isSome ∧
      (⟨"tcp://a:1", none,
        some ⟨[⟨.Tcp "a" 1, ⟨0, none, none⟩⟩], none, none⟩, none⟩ : RedisClient).client = none) ∧
    ((⟨"tcp://h:2", some ⟨⟨.Tcp "h" 2, ⟨0, none, none⟩⟩⟩, none, none⟩ : RedisClient).addresses
        = "tcp://h:2" ∧
      (⟨"tcp://h:2", some ⟨⟨.Tcp "h" 2, ⟨0, none, none⟩⟩⟩, none, none⟩ : RedisClient).client.isSome ∧
      (⟨"tcp://h:2", some ⟨⟨.Tcp "h" 2, ⟨0, none, none⟩⟩⟩, none, none⟩ : RedisClient).cluster_client
        = none) :=
  ⟨(c2_mode_selection (fun _ => .ok ⟨some "tcp", some "127.0.0.1", some 6379, ""⟩)
      ⟨none, none, none, none, 0⟩).2.2 rfl rfl "" rfl,
   ((c2_mode_selection (fun _ => .ok ⟨some "tcp", some "a", some 1, ""⟩)
      ⟨some "x", some "tcp://a:1", none, none, 0⟩).1 "tcp://a:1" rfl).1 (some "y"),
   ((c2_mode_selection (fun _ => .ok ⟨some "tcp", some "a", some 1, ""⟩)
      ⟨some "x", some "tcp://a:1", none, none, 0⟩).1 "tcp://a:1" rfl).2
     ⟨"tcp://a:1", none, some ⟨[⟨.Tcp "a" 1, ⟨0, none, none⟩⟩], none, none⟩, none⟩ rfl,
   (c2_mode_selection (fun _ => .ok ⟨some "tcp", some "h", some 2, ""⟩)
      ⟨some "tcp://h:2", none, none, none, 0⟩).2.1 rfl "tcp://h:2" rfl
     ⟨"tcp://h:2", some ⟨⟨.Tcp "h" 2, ⟨0, none, none⟩⟩⟩, none, none⟩ rfl⟩

/-- Claim C3: every client returned by `RedisClient::new` has exactly one of
the single-node template and the cluster template populated — never both,
never neither — and its connection cell is empty. -/
theorem c3_exactly_one_template (parse : String → Except String Uri)
    (s : RedisSettings) (r : RedisClient) (h : RedisClient.new parse s = .ok r) :
    ((r.client.isSome ∧ r.cluster_client = none) ∨
      (r.client = none ∧ r.cluster_client.isSome)) ∧
    r.conn = none := by
  cases hA : s.addresses with
  | some as =>
    simp only [RedisClient.new, hA] at h
    split at h
    · exact Except.noConfusion h
    · split at h
      · exact Except.noConfusion h
      · injection h with h
        subst h
        exact ⟨Or.inr ⟨rfl, rfl⟩, rfl⟩
  | none =>
    simp only [RedisClient.new, hA] at h
    split at h
    · exact Except.noConfusion h
    · simp only [Client.open] at h
      injection h with h
      subst h
      exact ⟨Or.inl ⟨rfl, rfl⟩, rfl⟩

theorem c3_exactly_one_template_witness :
    RedisClient.new (fun _ => .ok ⟨some "tcp", some "h", some 1, ""⟩)
        ⟨none, none, none, none, 5⟩ =
      .ok ⟨DEFAULT_REDIS_ENDPOINT,
        some ⟨⟨.Tcp "h" 1, ⟨5, none, none⟩⟩⟩, none, none⟩ ∧
    ((((⟨DEFAULT_REDIS_ENDPOINT, some ⟨⟨.Tcp "h" 1, ⟨5, none, none⟩⟩⟩, none,
          none⟩ : RedisClient).client.isSome ∧
       (⟨DEFAULT_REDIS_ENDPOINT, some ⟨⟨.Tcp "h" 1, ⟨5, none, none⟩⟩⟩, none,
          none⟩ : RedisClient).cluster_client = none) ∨
      ((⟨DEFAULT_REDIS_ENDPOINT, some ⟨⟨.Tcp "h" 1, ⟨5, none, none⟩⟩⟩, none,
          none⟩ : RedisClient).client = none ∧
       (⟨DEFAULT_REDIS_ENDPOINT, some ⟨⟨.Tcp "h" 1, ⟨5, none, none⟩⟩⟩, none,
          none⟩ : RedisClient).cluster_client.isSome)) ∧
     (⟨DEFAULT_REDIS_ENDPOINT, some ⟨⟨.Tcp "h" 1, ⟨5, none, none⟩⟩⟩, none,
        none⟩ : RedisClient).conn = none) :=
  ⟨rfl,
   c3_exactly_one_template (fun _ => .ok ⟨some "tcp", some "h", some 1, ""⟩)
     ⟨none, none, none, none, 5⟩
     ⟨DEFAULT_REDIS_ENDPOINT, some ⟨⟨.Tcp "h" 1, ⟨5, none, none⟩⟩⟩, none, none⟩ rfl⟩

theorem gci_ok_redis (parse : String → Except String Uri) (ep : String)
    (s : RedisSettings) (i : ConnectionInfo) (h : get_connection_info parse ep s = .ok i) :
    i.redis = ⟨s.db, s.username, s.password⟩ := by
  rcases hga : get_connection_addr parse ep with e | addr <;>
    simp only [get_connection_info, hga, Except.map] at h
  · exact Except.noConfusion h
  · injection h with h
    rw [← h]

theorem collect_infos_redis (parse : String → Except String Uri) (s : RedisSettings) :
    ∀ (l : List String) (infos : List ConnectionInfo),
      collect_infos parse s l = .ok infos →
      ∀ info ∈ infos, info.redis = ⟨s.db, s.username, s.password⟩ := by
  intro l
  induction l with
  | nil =>
    intro infos h info hmem
    injection h with h
    subst h
    simp at hmem
  | cons x xs ih =>
    intro infos h info hmem
    simp only [collect_infos] at h
    cases hg : get_connection_info parse x s with
    | error e => rw [hg] at h; exact Except.noConfusion h
    | ok i =>
      rw [hg] at h
      cases hrest : collect_infos parse s xs with
      | error e => rw [hrest] at h; exact Except.noConfusion h
      | ok irest =>
        rw [hrest] at h
        injection h with h
        subst h
        rcases List.mem_cons.mp hmem with h1 | h1
        · subst h1
          exact gci_ok_redis parse x s info hg
        · exact ih irest hrest info h1

theorem builder_nodes (b : ClusterClientBuilder) (u p : Option String) :
    ((b.with_username u).with_password p).initial_nodes = b.initial_nodes := by
  cases u <;> cases p <;> rfl

/-- Claim C4 (amended): in cluster mode, `RedisClient::new` applies the shared
username and password (when present) to the cluster client once via the
builder, and additionally every per-node connection descriptor produced by
`get_connection_info` carries the same credentials. -/
theorem c4_cluster_credentials (parse : String → Except String Uri)
    (s : RedisSettings) (as : String) (c : RedisClient) (cc : ClusterClient)
    (hA : s.addresses = some as)
    (h : RedisClient.new parse s = .ok c) (hcc : c.cluster_client = some cc) :
    cc.username = s.username ∧ cc.password = s.password ∧
    ∀ info ∈ cc.initial_nodes,
      info.redis.username = s.username ∧ info.redis.password = s.password := by
  cases hcol : collect_infos parse s (split_comma as) with
  | error e =>
    have hnew : RedisClient.new parse s = .error e := by
      simp [RedisClient.new, hA, hcol]
    rw [hnew] at h
    exact Except.noConfusion h
  | ok infos =>
    cases infos with
    | nil =>
      have hnew : RedisClient.new parse s =
          .error (format_redis_error
            { category := "invalid client config",
              detail := "Initial nodes can't be empty." }) := by
        simp [RedisClient.new, hA, hcol, ClusterClientBuilder.new,
          ClusterClientBuilder.build, builder_nodes]
      rw [hnew] at h
      exact Except.noConfusion h
    | cons i rest =>
      have hnew : RedisClient.new parse s =
          .ok ⟨as, none, some ⟨i :: rest, s.username, s.password⟩, none⟩ := by
        rcases hu : s.username with _ | un <;> rcases hp : s.password with _ | pw <;>
          simp [RedisClient.new, hA, hcol, ClusterClientBuilder.new,
            ClusterClientBuilder.with_username, ClusterClientBuilder.with_password,
            ClusterClientBuilder.build, hu, hp]
      rw [hnew] at h
      injection h with h
      subst h
      injection hcc with hcc
      subst hcc
      refine ⟨rfl, rfl, fun info hmem => ?_⟩
      have hr := collect_infos_redis parse s (split_comma as) (i :: rest) hcol info hmem
      rw [hr]
      exact ⟨rfl, rfl⟩

theorem c4_cluster_credentials_witness :
    RedisClient.new (fun _ => .ok ⟨some "tcp", some "a", some 1, ""⟩)
        ⟨none, some "tcp://a:1", some "un", some "pw", 0⟩ =
      .ok ⟨"tcp://a:1", none,
        some ⟨[⟨.Tcp "a" 1, ⟨0, some "un", some "pw"⟩⟩], some "un", some "pw"⟩, none⟩ ∧
    ((⟨[⟨.Tcp "a" 1, ⟨0, some "un", some "pw"⟩⟩], some "un",
        some "pw"⟩ : ClusterClient).username = some "un" ∧
      (⟨[⟨.Tcp "a" 1, ⟨0, some "un", some "pw"⟩⟩], some "un",
        some "pw"⟩ : ClusterClient).password = some "pw" ∧
      ∀ info ∈ (⟨[⟨.Tcp "a" 1, ⟨0, some "un", some "pw"⟩⟩], some "un",
        some "pw"⟩ : ClusterClient).initial_nodes,
        info.redis.username = some "un" ∧ info.redis.password = some "pw") :=
  ⟨rfl,
   c4_cluster_credentials (fun _ => .ok ⟨some "tcp", some "a", some 1, ""⟩)
     ⟨none, some "tcp://a:1", some "un", some "pw", 0⟩ "tcp://a:1"
     ⟨"tcp://a:1", none,
       some ⟨[⟨.Tcp "a" 1, ⟨0, some "un", some "pw"⟩⟩], some "un", some "pw"⟩, none⟩
     ⟨[⟨.Tcp "a" 1, ⟨0, some "un", some "pw"⟩⟩], some "un", some "pw"⟩
     rfl rfl rfl⟩

/-- Claim C4, counterexample to the claim as stated: with settings
`addresses = "tcp://a:1"`, `username = "un"`, `password = "pw"`, the per-node
connection descriptor inside the built cluster client does carry the
credentials (`username = some "un"`, `password = some "pw"`), contradicting
the claim that the per-node descriptors do not each carry them. -/
theorem c4_counterexample :
    RedisClient.new (fun _ => .ok ⟨some "tcp", some "a", some 1, ""⟩)
        ⟨none, some "tcp://a:1", some "un", some "pw", 0⟩ =
      .ok ⟨"tcp://a:1", none,
        some ⟨[⟨.Tcp "a" 1, ⟨0, some "un", some "pw"⟩⟩], some "un", some "pw"⟩, none⟩ ∧
    (⟨.Tcp "a" 1, ⟨0, some "un", some "pw"⟩⟩ : ConnectionInfo).redis.password ≠ none :=
  ⟨rfl, by decide⟩

/-- Claim C7: a failed initialization attempt of the lazy connection cell
returns the failure (mapped to kind `Unexpected`) to the caller and leaves
the cell empty, so a subsequent call retries initialization from scratch;
stated for both the single-node and cluster initialization paths. -/
theorem c7_failed_init_retry
    (sc : Client → Except RedisErr ConnectionManager)
    (cconn : ClusterClient → Except RedisErr ClusterConnection)
    (self : RedisClient) (cl : Client) (e : RedisErr)
    (hconn : self.conn = none) (hcl : self.client = some cl) (he : sc cl = .error e) :
    RedisClient.connect sc cconn self =
      (self, .error ((Error.new .Unexpected e.category).set_source e.display)) ∧
    (RedisClient.connect sc cconn self).1.conn = none ∧
    (∀ (sc₂ : Client → Except RedisErr ConnectionManager) (m : ConnectionManager),
      sc₂ cl = .ok m →
      RedisClient.connect sc₂ cconn (RedisClient.connect sc cconn self).1 =
        ({ self with conn := some (.Single m) }, .ok (.Single m))) ∧
    (∀ (self₂ : RedisClient) (ccl : ClusterClient) (e₂ : RedisErr)
        (cc₂ : ClusterClient → Except RedisErr ClusterConnection),
      self₂.conn = none → self₂.client = none → self₂.cluster_client = some ccl →
      cc₂ ccl = .error e₂ →
      RedisClient.connect sc cc₂ self₂ =
        (self₂, .error ((Error.new .Unexpected e₂.category).set_source e₂.display))) := by
  have h1 : RedisClient.connect sc cconn self =
      (self, .error ((Error.new .Unexpected e.category).set_source e.display)) := by
    simp only [RedisClient.connect, connect_attempt, hconn, hcl, he, Except.map,
      format_redis_error, RedisErr.display]
  refine ⟨h1, by rw [h1]; exact hconn, fun sc₂ m hm => ?_,
    fun self₂ ccl e₂ cc₂ h₂c h₂cl h₂cc h₂e => ?_⟩
  · rw [h1]
    simp only [RedisClient.connect, connect_attempt, hconn, hcl, hm, Except.map]
  · simp only [RedisClient.connect, connect_attempt, h₂c, h₂cl, h₂cc, h₂e, Except.map,
      format_redis_error, RedisErr.display]

theorem c7_failed_init_retry_witness :
    (⟨"tcp://h:1", some ⟨⟨.Tcp "h" 1, ⟨0, none, none⟩⟩⟩, none,
        none⟩ : RedisClient).conn = none ∧
    RedisClient.connect (fun _ => .error ⟨"ioerror", "connection refused"⟩)
        (fun _ => .error ⟨"c", "d"⟩)
        ⟨"tcp://h:1", some ⟨⟨.Tcp "h" 1, ⟨0, none, none⟩⟩⟩, none, none⟩ =
      (⟨"tcp://h:1", some ⟨⟨.Tcp "h" 1, ⟨0, none, none⟩⟩⟩, none, none⟩,
        .error ((Error.new .Unexpected "ioerror").set_source "connection refused")) ∧
    RedisClient.connect (fun _ => .ok ⟨7⟩) (fun _ => .error ⟨"c", "d"⟩)
        (RedisClient.connect (fun _ => .error ⟨"ioerror", "connection refused"⟩)
          (fun _ => .error ⟨"c", "d"⟩)
          ⟨"tcp://h:1", some ⟨⟨.Tcp "h" 1, ⟨0, none, none⟩⟩⟩, none, none⟩).1 =
      (⟨"tcp://h:1", some ⟨⟨.Tcp "h" 1, ⟨0, none, none⟩⟩⟩, none,
          some (.Single ⟨7⟩)⟩, .ok (.Single ⟨7⟩)) :=
  ⟨rfl,
   (c7_failed_init_retry (fun _ => .error ⟨"ioerror", "connection refused"⟩)
     (fun _ => .error ⟨"c", "d"⟩)
     ⟨"tcp://h:1", some ⟨⟨.Tcp "h" 1, ⟨0, none, none⟩⟩⟩, none, none⟩
     ⟨⟨.Tcp "h" 1, ⟨0, none, none⟩⟩⟩ ⟨"ioerror", "connection refused"⟩
     rfl rfl rfl).1,
   (c7_failed_init_retry (fun _ => .error ⟨"ioerror", "connection refused"⟩)
     (fun _ => .error ⟨"c", "d"⟩)
     ⟨"tcp://h:1", some ⟨⟨.Tcp "h" 1, ⟨0, none, none⟩⟩⟩, none, none⟩
     ⟨⟨.Tcp "h" 1, ⟨0, none, none⟩⟩⟩ ⟨"ioerror", "connection refused"⟩
     rfl rfl rfl).2.2.1 (fun _ => .ok ⟨7⟩) ⟨7⟩ rfl⟩

/-- Claim C9: once a first call to `connect` succeeds and populates the cell
with connection `v`, the cell holds exactly `v`, and every subsequent call —
under any driver behaviour whatsoever, hence performing no further connection
setup — returns the same `v` and leaves the client unchanged.  The concurrent
first calls of the claim are modelled by their serialization through the
tokio `OnceCell`, which runs initializers mutually excluded. -/
theorem c9_share_once
    (sc : Client → Except RedisErr ConnectionManager)
    (cconn : ClusterClient → Except RedisErr ClusterConnection)
    (self : RedisClient) (v : RedisConnection)
    (hconn : self.conn = none)
    (h : (RedisClient.connect sc cconn self).2 = .ok v) :
    (RedisClient.connect sc cconn self).1.conn = some v ∧
    ∀ (sc₂ : Client → Except RedisErr ConnectionManager)
      (cc₂ : ClusterClient → Except RedisErr ClusterConnection),
      RedisClient.connect sc₂ cc₂ (RedisClient.connect sc cconn self).1 =
        ((RedisClient.connect sc cconn self).1, .ok v) := by
  cases hatt : connect_attempt sc cconn self with
  | ok w =>
    have h1 : RedisClient.connect sc cconn self = ({ self with conn := some w }, .ok w) := by
      simp only [RedisClient.connect, hconn, hatt]
    rw [h1] at h
    simp only [Except.ok.injEq] at h
    subst h
    rw [h1]
    exact ⟨rfl, fun sc₂ cc₂ => rfl⟩
  | error e =>
    have h1 : RedisClient.connect sc cconn self =
        (self, .error (format_redis_error e)) := by
      simp only [RedisClient.connect, hconn, hatt]
    rw [h1] at h
    exact Except.noConfusion h

theorem c9_share_once_witness :
    (⟨"tcp://h:1", some ⟨⟨.Tcp "h" 1, ⟨0, none, none⟩⟩⟩, none,
        none⟩ : RedisClient).conn = none ∧
    (RedisClient.connect (fun _ => .ok ⟨7⟩) (fun _ => .error ⟨"c", "d"⟩)
        ⟨"tcp://h:1", some ⟨⟨.Tcp "h" 1, ⟨0, none, none⟩⟩⟩, none, none⟩).2 =
      .ok (.Single ⟨7⟩) ∧
    (RedisClient.connect (fun _ => .ok ⟨7⟩) (fun _ => .error ⟨"c", "d"⟩)
        ⟨"tcp://h:1", some ⟨⟨.Tcp "h" 1, ⟨0, none, none⟩⟩⟩, none, none⟩).1.conn =
      some (.Single ⟨7⟩) ∧
    RedisClient.connect (fun _ => .error ⟨"x", "y"⟩) (fun _ => .error ⟨"x", "y"⟩)
        (RedisClient.connect (fun _ => .ok ⟨7⟩) (fun _ => .error ⟨"c", "d"⟩)
          ⟨"tcp://h:1", some ⟨⟨.Tcp "h" 1, ⟨0, none, none⟩⟩⟩, none, none⟩).1 =
      ((RedisClient.connect (fun _ => .ok ⟨7⟩) (fun _ => .error ⟨"c", "d"⟩)
          ⟨"tcp://h:1", some ⟨⟨.Tcp "h" 1, ⟨0, none, none⟩⟩⟩, none, none⟩).1,
        .ok (.Single ⟨7⟩)) :=
  ⟨rfl, rfl,
   (c9_share_once (fun _ => .ok ⟨7⟩) (fun _ => .error ⟨"c", "d"⟩)
     ⟨"tcp://h:1", some ⟨⟨.Tcp "h" 1, ⟨0, none, none⟩⟩⟩, none, none⟩
     (.Single ⟨7⟩) rfl rfl).1,
   (c9_share_once (fun _ => .ok ⟨7⟩) (fun _ => .error ⟨"c", "d"⟩)
     ⟨"tcp://h:1", some ⟨⟨.Tcp "h" 1, ⟨0, none, none⟩⟩⟩, none, none⟩
     (.Single ⟨7⟩) rfl rfl).2 (fun _ => .error ⟨"x", "y"⟩) (fun _ => .error ⟨"x", "y"⟩)⟩

/-- Claim C10: with `addresses = Some("")`, `RedisClient::new` still takes the
cluster path, and parsing the empty endpoint piece fails, so construction
returns the `ConfigInvalid` "endpoint is invalid" error carrying the empty
endpoint as context — it never falls back to single mode and never returns a
client, whatever `settings.address` holds. -/
theorem c10_empty_addresses (parse : String → Except String Uri)
    (s : RedisSettings) (e : String)
    (hA : s.addresses = some "") (hp : parse "" = .error e) :
    RedisClient.new parse s =
      .error { kind := .ConfigInvalid, message := "endpoint is invalid",
               context := [("endpoint", "")], source := some e } := by
  have hsc : split_comma "" = [""] := rfl
  simp [RedisClient.new, hA, hsc, collect_infos, get_connection_info,
    get_connection_addr, hp, Except.map, Error.new, Error.with_context, Error.set_source]

theorem c10_empty_addresses_witness :
    (⟨some "tcp://x:1", some "", some "u", some "p", 3⟩ : RedisSettings).addresses =
      some "" ∧
    (fun (_ : String) => (.error "empty string" : Except String Uri)) "" =
      .error "empty string" ∧
    RedisClient.new (fun _ => .error "empty string")
        ⟨some "tcp://x:1", some "", some "u", some "p", 3⟩ =
      .error { kind := .ConfigInvalid, message := "endpoint is invalid",
               context := [("endpoint", "")], source := some "empty string" } :=
  ⟨rfl, rfl,
   c10_empty_addresses (fun _ => .error "empty string")
     ⟨some "tcp://x:1", some "", some "u", some "p", 3⟩ "empty string" rfl rfl⟩

theorem collect_agree (parse : String → Except String Uri) (s₁ s₂ : RedisSettings) :
    ∀ l : List String,
      errPart (collect_infos parse s₁ l) = errPart (collect_infos parse s₂ l) ∧
      ∀ i₁ i₂, collect_infos parse s₁ l = .ok i₁ → collect_infos parse s₂ l = .ok i₂ →
        i₁.length = i₂.length := by
  intro l
  induction l with
  | nil =>
    refine ⟨rfl, fun i₁ i₂ h₁ h₂ => ?_⟩
    injection h₁ with h₁
    injection h₂ with h₂
    rw [← h₁, ← h₂]
  | cons x xs ih =>
    obtain ⟨ihe, ihl⟩ := ih
    rcases hga : get_connection_addr parse x with e | addr
    · have hg₁ : get_connection_info parse x s₁ = .error e := by
        simp [get_connection_info, hga, Except.map]
      have hg₂ : get_connection_info parse x s₂ = .error e := by
        simp [get_connection_info, hga, Except.map]
      refine ⟨by simp [collect_infos, hg₁, hg₂], fun i₁ i₂ h₁ h₂ => ?_⟩
      simp [collect_infos, hg₁] at h₁
    · have hg₁ : get_connection_info parse x s₁ =
          .ok ⟨addr, ⟨s₁.db, s₁.username, s₁.password⟩⟩ := by
        simp [get_connection_info, hga, Except.map]
      have hg₂ : get_connection_info parse x s₂ =
          .ok ⟨addr, ⟨s₂.db, s₂.username, s₂.password⟩⟩ := by
        simp [get_connection_info, hga, Except.map]
      rcases hr₁ : collect_infos parse s₁ xs with e₁ | is₁ <;>
        rcases hr₂ : collect_infos parse s₂ xs with e₂ | is₂
      · have he : e₁ = e₂ := by
          rw [hr₁, hr₂] at ihe
          simpa [errPart] using ihe
        refine ⟨by simp [collect_infos, hg₁, hg₂, hr₁, hr₂, he], fun i₁ i₂ h₁ h₂ => ?_⟩
        simp [collect_infos, hg₁, hr₁] at h₁
      · rw [hr₁, hr₂] at ihe
        simp [errPart] at ihe
      · rw [hr₁, hr₂] at ihe
        simp [errPart] at ihe
      · refine ⟨by simp [collect_infos, hg₁, hg₂, hr₁, hr₂, errPart], fun i₁ i₂ h₁ h₂ => ?_⟩
        simp only [collect_infos, hg₁, hg₂, hr₁, hr₂] at h₁ h₂
        injection h₁ with h₁
        injection h₂ with h₂
        rw [← h₁, ← h₂]
        simp [ihl is₁ is₂ hr₁ hr₂]

theorem new_errRender_agree (parse : String → Except String Uri)
    (s₁ s₂ : RedisSettings) (hA : s₁.addresses = s₂.addresses)
    (ha : s₁.address = s₂.address) :
    errRender (RedisClient.new parse s₁) = errRender (RedisClient.new parse s₂) := by
  cases hA2 : s₂.addresses with
  | some as =>
    have hA1 : s₁.addresses = some as := by rw [hA, hA2]
    obtain ⟨he, hlen⟩ := collect_agree parse s₁ s₂ (split_comma as)
    rcases h₁ : collect_infos parse s₁ (split_comma as) with e₁ | i₁ <;>
      rcases h₂ : collect_infos parse s₂ (split_comma as) with e₂ | i₂
    · have heq : e₁ = e₂ := by
        rw [h₁, h₂] at he
        simpa [errPart] using he
      simp [RedisClient.new, hA1, hA2, h₁, h₂, heq]
    · rw [h₁, h₂] at he
      simp [errPart] at he
    · rw [h₁, h₂] at he
      simp [errPart] at he
    · have hl := hlen i₁ i₂ h₁ h₂
      cases i₁ with
      | nil =>
        cases i₂ with
        | nil =>
          simp [RedisClient.new, hA1, hA2, h₁, h₂, ClusterClientBuilder.new,
            ClusterClientBuilder.build, builder_nodes, errRender, errPart]
        | cons b u => simp at hl
      | cons a t =>
        cases i₂ with
        | nil => simp at hl
        | cons b u =>
          simp [RedisClient.new, hA1, hA2, h₁, h₂, ClusterClientBuilder.new,
            ClusterClientBuilder.build, builder_nodes, errRender, errPart]
  | none =>
    have hA1 : s₁.addresses = none := by rw [hA, hA2]
    rcases hga : get_connection_addr parse (s₂.address.getD DEFAULT_REDIS_ENDPOINT)
        with e | addr
    · simp [RedisClient.new, hA1, hA2, ha, get_connection_info, hga, Except.map,
        errRender, errPart]
    · simp [RedisClient.new, hA1, hA2, ha, get_connection_info, hga, Except.map,
        Client.open, errRender, errPart]

/-- Claim C8 (as a noninterference hyperproperty): none of the diagnostic
renderings depends on the supplied password value — the `Debug` form of
`RedisSettings` prints `<redacted>` in its place, the `Debug` form of
`RedisClient` prints only the addresses, and both the single-line `Display`
and the multi-line `Debug` rendering of every error `RedisClient::new`
constructs are identical for any two password values, so the literal password
never reaches them. -/
theorem c8_password_never_rendered (parse : String → Except String Uri)
    (s : RedisSettings) (pw₁ pw₂ : String) :
    RedisSettings.debugFmt { s with password := some pw₁ } =
      RedisSettings.debugFmt { s with password := some pw₂ } ∧
    (∀ c₁ c₂ : RedisClient, c₁.addresses = c₂.addresses →
      RedisClient.debugFmt c₁ = RedisClient.debugFmt c₂) ∧
    errRender (RedisClient.new parse { s with password := some pw₁ }) =
      errRender (RedisClient.new parse { s with password := some pw₂ }) := by
  refine ⟨rfl, fun c₁ c₂ h => by simp [RedisClient.debugFmt, h], ?_⟩
  exact new_errRender_agree parse _ _ rfl rfl

theorem c8_password_never_rendered_witness :
    RedisSettings.debugFmt ⟨some "tcp://h:1", none, some "u", some "secret-a", 0⟩ =
      RedisSettings.debugFmt ⟨some "tcp://h:1", none, some "u", some "secret-b", 0⟩ ∧
    RedisClient.debugFmt ⟨"tcp://h:1", some ⟨⟨.Tcp "h" 1, ⟨0, some "u", some "secret-a"⟩⟩⟩,
        none, none⟩ =
      RedisClient.debugFmt ⟨"tcp://h:1", some ⟨⟨.Tcp "h" 1, ⟨0, some "u", some "secret-b"⟩⟩⟩,
        none, none⟩ ∧
    errRender (RedisClient.new (fun _ => .error "bad uri")
        ⟨some "x y", none, some "u", some "secret-a", 0⟩) =
      errRender (RedisClient.new (fun _ => .error "bad uri")
        ⟨some "x y", none, some "u", some "secret-b", 0⟩) :=
  ⟨(c8_password_never_rendered (fun _ => .error "bad uri")
      ⟨some "tcp://h:1", none, some "u", some "secret-a", 0⟩ "secret-a" "secret-b").1,
   (c8_password_never_rendered (fun _ => .error "bad uri")
      ⟨some "tcp://h:1", none, some "u", some "secret-a", 0⟩ "secret-a" "secret-b").2.1
     ⟨"tcp://h:1", some ⟨⟨.Tcp "h" 1, ⟨0, some "u", some "secret-a"⟩⟩⟩, none, none⟩
     ⟨"tcp://h:1", some ⟨⟨.Tcp "h" 1, ⟨0, some "u", some "secret-b"⟩⟩⟩, none, none⟩ rfl,
   (c8_password_never_rendered (fun _ => .error "bad uri")
      ⟨some "x y", none, some "u", some "secret-a", 0⟩ "secret-a" "secret-b").2.2⟩

end RedisVerify
